import Mathlib

/-!
Verification of the LDAP password provider (`synapse_ldap_password_provider.py`).

The development is a shallow embedding of the module's authentication logic:

* the per-user failed-login map `self.bad_login_attemps` is an association
  list `Map` with operations `almGet` / `almSet` / `almDel`;
* the LDAP directory and the account store are deterministic oracles
  (`Directory`, `Store`) scripted per connection credentials, standing for a
  directory stub; every directory / store call is recorded as an event
  (`DirEvent`, `StoreEvent`) in an explicit state `S`, which also tracks which
  connections are currently open;
* `ldap3.core.exceptions.LDAPException` occurrences are scripted by the
  `...Exc` oracle fields and handled exactly where the source handles them;
  Python exceptions that the source does *not* catch (`NameError` from the
  success log's reference to the loop variable `mail`, `KeyError` from
  indexing the attribute dict, `AttributeError` from reading `self.ldap_alp`
  when no lockout policy was configured) surface as an `Except PyErr` error
  result of `check_password`.

Functions keep the names of the source (`check_password`,
`ldapSimpleBind` for `_ldap_simple_bind`, `ldapAuthenticatedSearch` for
`_ldap_authenticated_search`, `lockoutCheck` / `recordFailure` for the inline
lockout blocks of `check_password`).
-/

namespace LdapProvider

/-- An entry of `self.bad_login_attemps`: `{'count': ..., 'ts': ...}`. -/
structure Attempt where
  count : Nat
  ts : Nat
deriving Repr, DecidableEq

/-- `self.bad_login_attemps`, a dict from local part to `Attempt`. -/
abbrev Map := List (String × Attempt)

/-- The account lockout policy dict: required keys `attemps`, `locktime_s`. -/
structure Alp where
  attemps : Nat
  locktime_s : Nat
deriving Repr, DecidableEq

/-- `config.mode`: `parse_config` only ever produces `simple` or `search`. -/
inductive Mode
  | simple
  | search
deriving Repr, DecidableEq

/-- One element of `conn.response`: a response dict with its `type`, `dn` and
`attributes` (directory attributes are multi-valued). -/
structure Response where
  rtype : String
  dn : String
  attributes : List (String × List String)
deriving Repr, DecidableEq

/-- The provider configuration as set up by `__init__` from `parse_config`.
`attr_mail` / `attr_msisdn` are `some` iff `'mail'` / `'msisdn'` are keys of
`config.attributes`; `ldap_filter = ""` stands for an absent/falsy filter
(`config.get('filter', None)`); `alp` is `some` iff
`account_lockout_policy_exists`, matching `__init__` which assigns
`self.ldap_alp` only in that case. -/
structure Config where
  mode : Mode
  uri : String
  start_tls : Bool
  base : String
  attr_uid : String
  attr_name : String
  attr_mail : Option String
  attr_msisdn : Option String
  bind_dn : String
  bind_password : String
  ldap_filter : String
  alp : Option Alp

/-- Directory stub: every behaviour is keyed by the credentials `(dn, pw)` the
connection was created with (this module creates, uses and drops each
connection inside one function, so the creating credentials identify it), and
for searches additionally by the base and filter.  A `...Exc` field returning
`true` scripts an `LDAPException` raised by that call.  Constructing
`ldap3.Server` performs no I/O and is not modelled; the `authentication` /
`read_only` keyword arguments of `ldap3.Connection` do not influence any
modelled observable. -/
structure Directory where
  connectExc : String → String → Bool
  openExc : String → String → Bool
  tlsExc : String → String → Bool
  bindExc : String → String → Bool
  bindOk : String → String → Bool
  searchExc : String → String → String → String → Bool
  searchRes : String → String → String → String → List Response

/-- Account-store stub (`account_handler` plus the profile store):
`existsUser` scripts `check_user_exists`, `registerUserId` the user id
returned by `register`, `ownerOfThreepid` scripts `get_user_id_by_threepid`
(per medium and address). -/
structure Store where
  existsUser : String → Bool
  registerUserId : String → String
  ownerOfThreepid : String → String → Option String

/-- Directory operations attempted during one `check_password` call, in
order; `cid` is the connection they were issued on. -/
inductive DirEvent
  | connect (cid : Nat) (dn pw : String)
  | openc (cid : Nat)
  | startTls (cid : Nat)
  | bind (cid : Nat) (dn : String)
  | search (cid : Nat) (base query : String)
  | unbind (cid : Nat)
deriving Repr, DecidableEq

/-- Account-store operations performed during one `check_password` call. -/
inductive StoreEvent
  | checkExists (uid : String)
  | register (lp : String)
  | setDisplayname (lp name : String)
  | getByThreepid (medium addr : String)
  | addThreepid (uid medium addr : String) (validatedAt : Nat)
deriving Repr, DecidableEq

/-- Observable state of one authentication attempt: fresh connection ids,
the open/closed status of each created connection, and the two event logs. -/
structure S where
  nextId : Nat
  conns : List (Nat × Bool)
  devs : List DirEvent
  sevs : List StoreEvent
deriving Repr, DecidableEq

/-- The state at the start of a `check_password` call: nothing attempted. -/
def s0 : S := ⟨0, [], [], []⟩

/-- Set the open/closed status of connection `cid`. -/
def setConn (s : S) (cid : Nat) (b : Bool) : S :=
  { s with conns := s.conns.map (fun p => if p.1 = cid then (p.1, b) else p) }

/-- Ids of the connections still open in state `s`. -/
def openConns (s : S) : List Nat :=
  (s.conns.filter (fun p => p.2)).map (fun p => p.1)

/-- `conn.unbind()`: record the event and mark the connection closed. -/
def unbindConn (s : S) (cid : Nat) : S :=
  let s1 := setConn s cid false
  { s1 with devs := s1.devs ++ [DirEvent.unbind cid] }

/-- Dict lookup on the failed-login map. -/
def almGet : Map → String → Option Attempt
  | [], _ => none
  | (k, v) :: t, k2 => if k = k2 then some v else almGet t k2

/-- Dict assignment on the failed-login map. -/
def almSet : Map → String → Attempt → Map
  | [], k, v => [(k, v)]
  | (k0, v0) :: t, k, v => if k0 = k then (k0, v) :: t else (k0, v0) :: almSet t k v

/-- `del self.bad_login_attemps[localpart]`. -/
def almDel : Map → String → Map
  | [], _ => []
  | (k0, v0) :: t, k => if k0 = k then almDel t k else (k0, v0) :: almDel t k

/-- Python exceptions that `check_password` does not catch (its `except`
clause only catches `ldap3.core.exceptions.LDAPException`). -/
inductive PyErr
  | nameError
  | keyError
  | attributeError
deriving Repr, DecidableEq

/-- Lines 88-99 of `check_password`: the account-lockout gate.  The code
reads `self.ldap_alp['attemps']` without checking `self.ldap_alp_exists`, so
if an entry for the local part exists while no lockout policy was configured,
the attribute read raises (`AttributeError`); `.ok true` means locked. -/
def lockoutCheck (alp : Option Alp) (m : Map) (lp : String) (now : Nat) :
    Except PyErr Bool :=
  match almGet m lp with
  | none => Except.ok false
  | some e =>
    match alp with
    | none => Except.error PyErr.attributeError
    | some a =>
      if a.attemps ≤ e.count then
        if now ≤ e.ts + a.locktime_s then Except.ok true else Except.ok false
      else Except.ok false

/-- Lines 124-132 (and identically 145-153): record a failed login. -/
def recordFailure (m : Map) (lp : String) (now : Nat) : Map :=
  match almGet m lp with
  | some e => almSet m lp ⟨e.count + 1, now⟩
  | none => almSet m lp ⟨1, now⟩

/-- The failure recording as guarded by `if self.ldap_alp_exists:`. -/
def recordIfAlp (cfg : Config) (m : Map) (lp : String) (now : Nat) : Map :=
  if cfg.alp.isSome then recordFailure m lp now else m

/-- Python `str.lower()` (character-wise lowering, as structural recursion
so that concrete instances evaluate). -/
def pyLower (s : String) : String :=
  String.mk (s.data.map Char.toLower)

/-- The characters before the first `':'` — `split(":", 1)[0]`. -/
def takeBeforeColon : List Char → List Char
  | [] => []
  | c :: cs => if c = ':' then [] else c :: takeBeforeColon cs

/-- Lines 84-85: `user_id.lower().split(":", 1)[0][1:]`. -/
def localpartOf (user_id : String) : String :=
  String.mk ((takeBeforeColon (pyLower user_id).data).drop 1)

/-- `'({prop}={value})'` for the uid attribute. -/
def uidQuery (cfg : Config) (lp : String) : String :=
  "(" ++ cfg.attr_uid ++ "=" ++ lp ++ ")"

/-- Lines 450-460: the filter used by `_ldap_authenticated_search` (extra
filter combined whenever it is truthy; the mode is already `search` there). -/
def searchModeQuery (cfg : Config) (lp : String) : String :=
  if cfg.ldap_filter ≠ "" then "(&" ++ uidQuery cfg lp ++ cfg.ldap_filter ++ ")"
  else uidQuery cfg lp

/-- Lines 173-182: the filter used by the attribute search in
`check_password` (extra filter only in `search` mode and when truthy). -/
def mainQuery (cfg : Config) (lp : String) : String :=
  if cfg.mode = Mode.search ∧ cfg.ldap_filter ≠ "" then
    "(&" ++ uidQuery cfg lp ++ cfg.ldap_filter ++ ")"
  else uidQuery cfg lp

/-- A connection object: its id and the credentials it was created with. -/
abbrev Conn := Nat × String × String

/-- Lines 380-387: the StartTLS block shared by both helpers — `conn.open()`
then `conn.start_tls()`; the returned `Bool` is `true` when an
`LDAPException` was raised.  `open` failing leaves the socket closed;
`start_tls` failing happens on an already-open socket. -/
def tlsStep (d : Directory) (dn pw : String) (cid : Nat) (s : S) : Bool × S :=
  let s1 : S := { s with devs := s.devs ++ [DirEvent.openc cid] }
  if d.openExc dn pw then (true, s1)
  else
    let s2 := setConn s1 cid true
    let s3 : S := { s2 with devs := s2.devs ++ [DirEvent.startTls cid] }
    if d.tlsExc dn pw then (true, s3) else (false, s3)

/-- Lines 389-398: `conn.bind()` and the two outcomes of `_ldap_simple_bind`.
A bind that completes (without raising) has opened the socket; a bind that
raises is modelled as leaving the socket state unchanged (the source does not
determine it).  On a completed failed bind the connection is unbound. -/
def bindStep (d : Directory) (dn pw : String) (cid : Nat) (s : S) :
    (Bool × Option Conn) × S :=
  let s1 : S := { s with devs := s.devs ++ [DirEvent.bind cid dn] }
  if d.bindExc dn pw then ((false, none), s1)
  else
    let s2 := setConn s1 cid true
    if d.bindOk dn pw then ((true, some (cid, dn, pw)), s2)
    else ((false, none), unbindConn s2 cid)

/-- `_ldap_simple_bind` (lines 356-402): connect, optional StartTLS, bind;
any `LDAPException` is caught and yields `(False, None)` — note that the
`except` branch performs no unbind. -/
def ldapSimpleBind (cfg : Config) (d : Directory) (dn pw : String) (s : S) :
    (Bool × Option Conn) × S :=
  let cid := s.nextId
  let s1 : S := { s with nextId := cid + 1,
                         devs := s.devs ++ [DirEvent.connect cid dn pw] }
  if d.connectExc dn pw then ((false, none), s1)
  else
    let s2 : S := { s1 with conns := s1.conns ++ [(cid, false)] }
    if cfg.start_tls then
      match tlsStep d dn pw cid s2 with
      | (true, s3) => ((false, none), s3)
      | (false, s3) => bindStep d dn pw cid s3
    else bindStep d dn pw cid s2

/-- `_ldap_authenticated_search` (lines 404-504): service bind with the
configured `bind_dn` / `bind_password`, search for the local part, and — on
exactly one result entry — a user bind against the found DN via
`_ldap_simple_bind`; every other outcome is `(False, None)`.  The service
connection is unbound on the completed-bind-failure, single-entry and
zero-or-many paths but not in the `except` branch. -/
def ldapAuthenticatedSearch (cfg : Config) (d : Directory) (lp pw : String)
    (s : S) : (Bool × Option Conn) × S :=
  let dn := cfg.bind_dn
  let spw := cfg.bind_password
  let cid := s.nextId
  let s1 : S := { s with nextId := cid + 1,
                         devs := s.devs ++ [DirEvent.connect cid dn spw] }
  if d.connectExc dn spw then ((false, none), s1)
  else
    let s2 : S := { s1 with conns := s1.conns ++ [(cid, false)] }
    match (if cfg.start_tls then tlsStep d dn spw cid s2 else (false, s2)) with
    | (true, s3) => ((false, none), s3)
    | (false, s3) =>
      let s4 : S := { s3 with devs := s3.devs ++ [DirEvent.bind cid dn] }
      if d.bindExc dn spw then ((false, none), s4)
      else
        let s5 := setConn s4 cid true
        if d.bindOk dn spw then
          let q := searchModeQuery cfg lp
          let s6 : S := { s5 with devs := s5.devs ++ [DirEvent.search cid cfg.base q] }
          if d.searchExc dn spw cfg.base q then ((false, none), s6)
          else
            match (d.searchRes dn spw cfg.base q).filter
                (fun r => r.rtype == "searchResEntry") with
            | [r] => ldapSimpleBind cfg d r.dn pw (unbindConn s6 cid)
            | _ => ((false, none), unbindConn s6 cid)
        else ((false, none), unbindConn s5 cid)

/-- Dict lookup in a response's attribute dict; a missing key raises
`KeyError` at the call sites that index it directly. -/
def attrGet : List (String × List String) → String → Option (List String)
  | [], _ => none
  | (k, v) :: t, k2 => if k = k2 then some v else attrGet t k2

/-- Lines 204-207: `attrs[name_attr][0]` under a bare `except` → `None`. -/
def nameOf (cfg : Config) (attrs : List (String × List String)) : Option String :=
  match attrGet attrs cfg.attr_name with
  | some (v :: _) => some v
  | _ => none

/-- One iteration of the mail/msisdn loops (lines 221-245 resp. 248-272):
look the address up, and add the threepid only when the store returned a
falsy owner (`None`, or the empty string — Python's `if not ...`); when an
owner exists the iteration only logs (conflict or silent no-op). -/
def threepidStep (st : Store) (uid medium lookupKey rawVal : String)
    (nowMs : Nat) (s : S) : S :=
  let s1 : S := { s with sevs := s.sevs ++ [StoreEvent.getByThreepid medium lookupKey] }
  match st.ownerOfThreepid medium lookupKey with
  | none =>
    { s1 with sevs := s1.sevs ++ [StoreEvent.addThreepid uid medium rawVal nowMs] }
  | some own =>
    if own = "" then
      { s1 with sevs := s1.sevs ++ [StoreEvent.addThreepid uid medium rawVal nowMs] }
    else s1

/-- Lines 274-281: the success log interpolates the loop variable `mail`;
when the mail loop ran zero iterations that name is unbound and the log call
raises (`UnboundLocalError`, a `NameError`) — uncaught, since only
`LDAPException` is handled.  Otherwise the lockout entry is deleted and
`True` returned. -/
def finishAuth (lp : String) (m : Map) (s : S) (mailBound : Bool) :
    Except PyErr Bool × Map × S :=
  if mailBound then (Except.ok true, almDel m lp, s)
  else (Except.error PyErr.nameError, m, s)

/-- Lines 247-272 then 274-281: the msisdn loop (when `'msisdn'` is a
configured attribute; indexing a missing key in `attrs` raises `KeyError`),
followed by the success epilogue. -/
def reconcileMsisdn (cfg : Config) (st : Store) (uid2 lp : String)
    (attrs : List (String × List String)) (nowMs : Nat) (m : Map) (s : S)
    (mailBound : Bool) : Except PyErr Bool × Map × S :=
  match cfg.attr_msisdn with
  | some pa =>
    match attrGet attrs pa with
    | none => (Except.error PyErr.keyError, m, s)
    | some ps =>
      let s1 := ps.foldl (fun acc p => threepidStep st uid2 "msisdn" p p nowMs acc) s
      finishAuth lp m s1 mailBound
  | none => finishAuth lp m s mailBound

/-- Lines 209-214: `check_user_exists`, and `register` when the account does
not exist yet — the registered user id replaces `user_id` for the rest of
the call. -/
def registerStage (st : Store) (user_id lp : String) (s : S) : String × S :=
  let s1 : S := { s with sevs := s.sevs ++ [StoreEvent.checkExists user_id] }
  if st.existsUser user_id then (user_id, s1)
  else (st.registerUserId lp,
        { s1 with sevs := s1.sevs ++ [StoreEvent.register lp] })

/-- Lines 216-218: set the display name when a `name` value was found. -/
def displayStage (cfg : Config) (attrs : List (String × List String))
    (lp : String) (s : S) : S :=
  match nameOf cfg attrs with
  | some n => { s with sevs := s.sevs ++ [StoreEvent.setDisplayname lp n] }
  | none => s

/-- Lines 203-281: profile reconciliation for the single found entry —
account existence / registration (the returned user id replaces `user_id`),
display name, the mail loop (addresses compared lower-cased, stored raw),
then the msisdn loop and the success epilogue. -/
def reconcile (cfg : Config) (st : Store) (user_id lp : String)
    (attrs : List (String × List String)) (nowMs : Nat) (m : Map) (s : S) :
    Except PyErr Bool × Map × S :=
  let p := registerStage st user_id lp s
  let uid2 := p.1
  let s3 := displayStage cfg attrs lp p.2
  match cfg.attr_mail with
  | some ma =>
    match attrGet attrs ma with
    | none => (Except.error PyErr.keyError, m, s3)
    | some mails =>
      let s4 := mails.foldl
        (fun acc mm => threepidStep st uid2 "email" (pyLower mm) mm nowMs acc) s3
      reconcileMsisdn cfg st uid2 lp attrs nowMs m s4 (!mails.isEmpty)
  | none => reconcileMsisdn cfg st uid2 lp attrs nowMs m s3 false

/-- Lines 173-292: after a successful directory bind, the attribute search
on the authenticated connection; an `LDAPException` here is caught by the
outer handler (line 294) and yields `False`; zero or several result entries
yield `False`; exactly one entry proceeds to reconciliation. -/
def afterBind (cfg : Config) (d : Directory) (st : Store) (user_id lp : String)
    (c : Conn) (nowMs : Nat) (m : Map) (s : S) : Except PyErr Bool × Map × S :=
  let q := mainQuery cfg lp
  let s1 : S := { s with devs := s.devs ++ [DirEvent.search c.1 cfg.base q] }
  if d.searchExc c.2.1 c.2.2 cfg.base q then (Except.ok false, m, s1)
  else
    match (d.searchRes c.2.1 c.2.2 cfg.base q).filter
        (fun r => r.rtype == "searchResEntry") with
    | [r] => reconcile cfg st user_id lp r.attributes nowMs m s1
    | _ => (Except.ok false, m, s1)

/-- `check_password` (lines 74-296).  Inputs beyond the credentials: the
scripted directory and store, `now` (`time.time()`), `nowMs`
(`get_clock().time_msec()`) and the current failed-login map.  The result is
the outcome (a `Bool`, or an uncaught Python exception), the new map, and
the event state.  The `(true, none)` arms mirror the dead `NameError` guard
of lines 160-171 (both helpers in fact pair `True` with a connection). -/
def check_password (cfg : Config) (d : Directory) (st : Store)
    (user_id password : String) (now nowMs : Nat) (m : Map) :
    Except PyErr Bool × Map × S :=
  if password = "" then (Except.ok false, m, s0)
  else
    let uid := pyLower user_id
    let lp := localpartOf user_id
    match lockoutCheck cfg.alp m lp now with
    | Except.error e => (Except.error e, m, s0)
    | Except.ok true => (Except.ok false, m, s0)
    | Except.ok false =>
      match cfg.mode with
      | Mode.simple =>
        let bdn := cfg.attr_uid ++ "=" ++ lp ++ "," ++ cfg.base
        match ldapSimpleBind cfg d bdn password s0 with
        | ((true, some c), s1) => afterBind cfg d st uid lp c nowMs m s1
        | ((true, none), s1) => (Except.ok false, m, s1)
        | ((false, _), s1) => (Except.ok false, recordIfAlp cfg m lp now, s1)
      | Mode.search =>
        match ldapAuthenticatedSearch cfg d lp password s0 with
        | ((true, some c), s1) => afterBind cfg d st uid lp c nowMs m s1
        | ((true, none), s1) => (Except.ok false, m, s1)
        | ((false, _), s1) => (Except.ok false, recordIfAlp cfg m lp now, s1)

/-- Iterated `check_password` calls sharing the failed-login map (the only
state the provider object keeps across calls); each call supplies
`(user_id, password, now, nowMs)`. -/
def runSeq (cfg : Config) (d : Directory) (st : Store)
    (calls : List (String × String × Nat × Nat)) (m : Map) : Map :=
  calls.foldl
    (fun acc c => (check_password cfg d st c.1 c.2.1 c.2.2.1 c.2.2.2 acc).2.1) m

/-- DNs that some `bind` operation was attempted with, in order. -/
def bindDNs (l : List DirEvent) : List String :=
  l.filterMap (fun e => match e with
    | DirEvent.bind _ dn => some dn
    | _ => none)

end LdapProvider

namespace LdapProvider

/-! ### Concrete stubs used by counterexamples and witnesses -/

/-- A directory stub that raises nowhere and denies every bind. -/
def stubDirDeny : Directory :=
  { connectExc := fun _ _ => false, openExc := fun _ _ => false,
    tlsExc := fun _ _ => false, bindExc := fun _ _ => false,
    bindOk := fun _ _ => false, searchExc := fun _ _ _ _ => false,
    searchRes := fun _ _ _ _ => [] }

/-- A directory stub that raises nowhere, accepts every bind, and returns a
single entry (with `cn` and `mail` values) from every search. -/
def stubDirAccept : Directory :=
  { stubDirDeny with
    bindOk := fun _ _ => true,
    searchRes := fun _ _ _ _ =>
      [⟨"searchResEntry", "uid=alice,dc=example,dc=org",
        [("cn", ["Alice"]), ("mail", ["alice@example.org"])]⟩] }

/-- A directory stub whose `start_tls` call raises (after a successful
`open`). -/
def stubDirTlsRaise : Directory :=
  { stubDirDeny with tlsExc := fun _ _ => true }

/-- A directory stub that accepts the service bind but returns two matching
entries from every search. -/
def stubDirTwo : Directory :=
  { stubDirDeny with
    bindOk := fun _ _ => true,
    searchRes := fun _ _ _ _ =>
      [⟨"searchResEntry", "uid=a,dc=example,dc=org", []⟩,
       ⟨"searchResEntry", "uid=b,dc=example,dc=org", []⟩] }

/-- A store stub: every account exists, no threepid has an owner. -/
def stubStore : Store :=
  { existsUser := fun _ => true, registerUserId := fun lp => lp,
    ownerOfThreepid := fun _ _ => none }

/-- A store stub in which `alice@example.org` is already owned by
`@alice:example.org`. -/
def stubStoreOwned : Store :=
  { stubStore with
    ownerOfThreepid := fun medium addr =>
      if medium = "email" ∧ addr = "alice@example.org" then
        some "@alice:example.org"
      else none }

/-- A `simple`-mode configuration without a lockout policy and without a
`mail` attribute mapping. -/
def cfgSimpleNoMail : Config :=
  { mode := Mode.simple, uri := "ldap://x", start_tls := false,
    base := "dc=example,dc=org", attr_uid := "uid", attr_name := "cn",
    attr_mail := none, attr_msisdn := none,
    bind_dn := "", bind_password := "", ldap_filter := "", alp := none }

/-- A `simple`-mode configuration with a `mail` attribute mapping. -/
def cfgSimpleMail : Config :=
  { cfgSimpleNoMail with attr_mail := some "mail" }

/-- `cfgSimpleMail` with a lockout policy of 2 attempts / 60 seconds. -/
def cfgSimpleAlp : Config :=
  { cfgSimpleMail with alp := some ⟨2, 60⟩ }

/-- `cfgSimpleNoMail` with StartTLS requested. -/
def cfgSimpleTls : Config :=
  { cfgSimpleNoMail with start_tls := true }

/-- A `search`-mode configuration with a lockout policy of 3 attempts / 60
seconds. -/
def cfgSearchAlp : Config :=
  { cfgSimpleMail with
    mode := Mode.search,
    bind_dn := "cn=svc,dc=example,dc=org",
    bind_password := "svcpw",
    alp := some ⟨3, 60⟩ }

/-! ### Association-list lemmas -/

theorem almGet_set_self (m : Map) (k : String) (v : Attempt) :
    almGet (almSet m k v) k = some v := by
  induction m with
  | nil => simp [almSet, almGet]
  | cons h t ih =>
    obtain ⟨k0, v0⟩ := h
    by_cases hk : k0 = k <;> simp [almSet, almGet, hk, ih]

theorem almGet_del_self (m : Map) (k : String) :
    almGet (almDel m k) k = none := by
  induction m with
  | nil => simp [almDel, almGet]
  | cons h t ih =>
    obtain ⟨k0, v0⟩ := h
    by_cases hk : k0 = k <;> simp [almDel, almGet, hk, ih]

theorem almGet_record (m : Map) (lp : String) (now : Nat) :
    almGet (recordFailure m lp now) lp =
      some ⟨(match almGet m lp with
             | some e => e.count + 1
             | none => 1), now⟩ := by
  unfold recordFailure
  cases h : almGet m lp <;> simp [almGet_set_self]

end LdapProvider

namespace LdapProvider

/-! ### Claim C3 — empty secret -/

/-- Claim C3: for every identifier, an empty secret makes `check_password`
return Rejected immediately: the result is `False`, the failed-login map is
returned unchanged, and the event state is `s0` — no directory operation
(connect, TLS upgrade, bind, search, unbind), no store operation, and no
lockout mutation takes place (lines 82-83 of the source). -/
theorem empty_secret_rejected (cfg : Config) (d : Directory) (st : Store)
    (user_id : String) (now nowMs : Nat) (m : Map) :
    check_password cfg d st user_id "" now nowMs m = (Except.ok false, m, s0) := by
  simp [check_password]

/-! ### Claim C4 — the lockout gate -/

/-- Claim C4: with a lockout policy `a` configured, the lockout test of
`check_password` (lines 87-99) reports locked iff an entry for the local
part exists whose failure count is at least `a.attemps` and
`now ≤ ts + a.locktime_s`; and whenever it reports locked, `check_password`
returns Rejected with the map unchanged and the event state still `s0` — no
directory operation and no tracker mutation. -/
theorem lockout_gate (a : Alp) :
    (∀ (m : Map) (lp : String) (now : Nat),
        lockoutCheck (some a) m lp now = Except.ok true ↔
          ∃ e, almGet m lp = some e ∧ a.attemps ≤ e.count ∧
            now ≤ e.ts + a.locktime_s)
    ∧ (∀ (cfg : Config) (d : Directory) (st : Store) (user_id pw : String)
        (now nowMs : Nat) (m : Map), cfg.alp = some a → pw ≠ "" →
        lockoutCheck (some a) m (localpartOf user_id) now = Except.ok true →
        check_password cfg d st user_id pw now nowMs m
          = (Except.ok false, m, s0)) := by
  constructor
  · intro m lp now
    cases h : almGet m lp with
    | none => simp [lockoutCheck, h]
    | some e =>
      simp only [lockoutCheck, h]
      split_ifs with h1 h2 <;> simp_all
  · intro cfg d st user_id pw now nowMs m halp hpw hlock
    simp only [check_password, if_neg hpw, halp, hlock]

/-- Witness for `lockout_gate`: a concrete locked state (2 failures, policy
2 attempts / 60 s, still inside the window) rejects without any directory
contact. -/
theorem lockout_gate_witness :
    check_password cfgSimpleAlp stubDirDeny stubStore "@bob:example.org" "pw"
        120 0 [("bob", ⟨2, 100⟩)]
      = (Except.ok false, [("bob", ⟨2, 100⟩)], s0) :=
  (lockout_gate ⟨2, 60⟩).2 cfgSimpleAlp stubDirDeny stubStore
    "@bob:example.org" "pw" 120 0 [("bob", ⟨2, 100⟩)] rfl (by decide) (by rfl)

end LdapProvider

deriving instance DecidableEq for Except

namespace LdapProvider

/-! ### Claim C5 — lockout tracker lifecycle -/

theorem fold_record_count (lp : String) :
    ∀ (ts : List Nat) (m : Map) (c t0 : Nat), almGet m lp = some ⟨c, t0⟩ →
      ∀ t, almGet (List.foldl (fun acc u => recordFailure acc lp u) m (ts ++ [t])) lp
        = some ⟨c + ts.length + 1, t⟩ := by
  intro ts
  induction ts with
  | nil =>
    intro m c t0 h t
    simp only [List.nil_append, List.foldl_cons, List.foldl_nil]
    rw [almGet_record, h]
    simp
  | cons u ts ih =>
    intro m c t0 h t
    simp only [List.cons_append, List.foldl_cons, List.length_cons]
    have h2 : almGet (recordFailure m lp u) lp = some ⟨c + 1, u⟩ := by
      rw [almGet_record, h]
    rw [ih (recordFailure m lp u) (c + 1) u h2 t]
    simp only [Option.some.injEq, Attempt.mk.injEq]
    exact ⟨by omega, trivial⟩

theorem fold_record_from_empty (lp : String) (ts : List Nat) (t : Nat)
    (m : Map) (h0 : almGet m lp = none) :
    almGet (List.foldl (fun acc u => recordFailure acc lp u) m (ts ++ [t])) lp
      = some ⟨ts.length + 1, t⟩ := by
  cases ts with
  | nil =>
    simp only [List.nil_append, List.foldl_cons, List.foldl_nil, List.length_nil]
    rw [almGet_record, h0]
  | cons u ts =>
    simp only [List.cons_append, List.foldl_cons, List.length_cons]
    have h2 : almGet (recordFailure m lp u) lp = some ⟨1, u⟩ := by
      rw [almGet_record, h0]
    rw [fold_record_count lp ts (recordFailure m lp u) 1 u h2 t]
    simp only [Option.some.injEq, Attempt.mk.injEq]
    exact ⟨by omega, trivial⟩

theorem finishAuth_ok_map (lp : String) (m : Map) (s : S) (b : Bool) :
    (finishAuth lp m s b).1 = Except.ok true →
    (finishAuth lp m s b).2.1 = almDel m lp := by
  cases b <;> simp [finishAuth]

theorem reconcileMsisdn_ok_map (cfg : Config) (st : Store) (uid2 lp : String)
    (attrs : List (String × List String)) (nowMs : Nat) (m : Map) (s : S)
    (mb : Bool) :
    (reconcileMsisdn cfg st uid2 lp attrs nowMs m s mb).1 = Except.ok true →
    (reconcileMsisdn cfg st uid2 lp attrs nowMs m s mb).2.1 = almDel m lp := by
  unfold reconcileMsisdn
  split
  · split
    · simp
    · exact finishAuth_ok_map _ _ _ _
  · exact finishAuth_ok_map _ _ _ _

theorem reconcile_ok_map (cfg : Config) (st : Store) (user_id lp : String)
    (attrs : List (String × List String)) (nowMs : Nat) (m : Map) (s : S) :
    (reconcile cfg st user_id lp attrs nowMs m s).1 = Except.ok true →
    (reconcile cfg st user_id lp attrs nowMs m s).2.1 = almDel m lp := by
  simp only [reconcile]
  split
  · split
    · simp
    · exact reconcileMsisdn_ok_map _ _ _ _ _ _ _ _ _
  · exact reconcileMsisdn_ok_map _ _ _ _ _ _ _ _ _

theorem afterBind_ok_map (cfg : Config) (d : Directory) (st : Store)
    (user_id lp : String) (c : Conn) (nowMs : Nat) (m : Map) (s : S) :
    (afterBind cfg d st user_id lp c nowMs m s).1 = Except.ok true →
    (afterBind cfg d st user_id lp c nowMs m s).2.1 = almDel m lp := by
  simp only [afterBind]
  split
  · simp
  · split
    · exact reconcile_ok_map _ _ _ _ _ _ _ _
    · simp

theorem check_password_ok_map (cfg : Config) (d : Directory) (st : Store)
    (user_id pw : String) (now nowMs : Nat) (m : Map) :
    (check_password cfg d st user_id pw now nowMs m).1 = Except.ok true →
    almGet (check_password cfg d st user_id pw now nowMs m).2.1
      (localpartOf user_id) = none := by
  by_cases hpw : pw = ""
  · simp [check_password, hpw]
  · simp only [check_password, if_neg hpw]
    cases hl : lockoutCheck cfg.alp m (localpartOf user_id) now with
    | error e => simp
    | ok b =>
      cases b
      · cases hm : cfg.mode with
        | simple =>
          rcases hres : ldapSimpleBind cfg d
              (cfg.attr_uid ++ "=" ++ localpartOf user_id ++ "," ++ cfg.base)
              pw s0 with ⟨⟨rb, oc⟩, s1⟩
          cases rb
          · simp
          · cases oc with
            | none => simp
            | some c =>
              intro h
              rw [afterBind_ok_map _ _ _ _ _ _ _ _ _ h]
              exact almGet_del_self _ _
        | search =>
          rcases hres : ldapAuthenticatedSearch cfg d (localpartOf user_id)
              pw s0 with ⟨⟨rb, oc⟩, s1⟩
          cases rb
          · simp
          · cases oc with
            | none => simp
            | some c =>
              intro h
              rw [afterBind_ok_map _ _ _ _ _ _ _ _ _ h]
              exact almGet_del_self _ _
      · simp

/-- Claim C5: (i) recording a failure (lines 124-132 / 145-153) increments
the local part's count when an entry exists, creates a count-1 entry
otherwise, and in both cases stamps the entry with `now`; (ii) hence after
`a.attemps` (or more) consecutive recorded failures — the last one at time
`t` — the lockout test is positive at any `now ≤ t + a.locktime_s`; and
(iii) whenever `check_password` succeeds, the local part's entry has been
removed (lines 279-280), so the lockout test is negative even inside the
window. -/
theorem lockout_tracker_lifecycle :
    (∀ (m : Map) (lp : String) (now : Nat),
        almGet (recordFailure m lp now) lp
          = some ⟨(match almGet m lp with
                   | some e => e.count + 1
                   | none => 1), now⟩)
    ∧ (∀ (a : Alp) (m : Map) (lp : String) (ts : List Nat) (t now : Nat),
        almGet m lp = none → a.attemps ≤ (ts ++ [t]).length →
        now ≤ t + a.locktime_s →
        lockoutCheck (some a)
            (List.foldl (fun acc u => recordFailure acc lp u) m (ts ++ [t]))
            lp now
          = Except.ok true)
    ∧ (∀ (cfg : Config) (d : Directory) (st : Store) (user_id pw : String)
        (now nowMs : Nat) (m : Map),
        (check_password cfg d st user_id pw now nowMs m).1 = Except.ok true →
        lockoutCheck cfg.alp
            (check_password cfg d st user_id pw now nowMs m).2.1
            (localpartOf user_id) now
          = Except.ok false) := by
  refine ⟨almGet_record, ?_, ?_⟩
  · intro a m lp ts t now h0 hn hw
    unfold lockoutCheck
    rw [fold_record_from_empty lp ts t m h0]
    have h1 : a.attemps ≤ ts.length + 1 := by
      simp only [List.length_append, List.length_cons, List.length_nil] at hn
      omega
    show (if a.attemps ≤ ts.length + 1 then
            if now ≤ t + a.locktime_s then Except.ok true else Except.ok false
          else Except.ok false) = Except.ok true
    rw [if_pos h1, if_pos hw]
  · intro cfg d st user_id pw now nowMs m h
    unfold lockoutCheck
    rw [check_password_ok_map cfg d st user_id pw now nowMs m h]

/-- Witness for `lockout_tracker_lifecycle`: concrete instances of all three
parts (a fresh failure entry, a lock after two recorded failures under a
2-attempt policy, and a successful call leaving the user unlocked even
though the window is still open). -/
theorem lockout_tracker_lifecycle_witness :
    almGet (recordFailure [] "bob" 4) "bob" = some ⟨1, 4⟩
    ∧ lockoutCheck (some ⟨2, 60⟩)
        (List.foldl (fun acc u => recordFailure acc "bob" u) [] ([3] ++ [7]))
        "bob" 50
      = Except.ok true
    ∧ lockoutCheck cfgSimpleAlp.alp
        (check_password cfgSimpleAlp stubDirAccept stubStore
          "@alice:example.org" "pw" 9 0 [("alice", ⟨1, 8⟩)]).2.1
        (localpartOf "@alice:example.org") 9
      = Except.ok false :=
  ⟨lockout_tracker_lifecycle.1 [] "bob" 4,
   lockout_tracker_lifecycle.2.1 ⟨2, 60⟩ [] "bob" [3] 7 50 rfl (by decide)
     (by decide),
   lockout_tracker_lifecycle.2.2 cfgSimpleAlp stubDirAccept stubStore
     "@alice:example.org" "pw" 9 0 [("alice", ⟨1, 8⟩)] (by rfl)⟩

end LdapProvider

namespace LdapProvider

/-! ### Claim C1 — service-bind failure in search mode -/

theorem authSearch_bindFail (cfg : Config) (d : Directory) (lp pw : String)
    (s : S)
    (hc : d.connectExc cfg.bind_dn cfg.bind_password = false)
    (ho : d.openExc cfg.bind_dn cfg.bind_password = false)
    (ht : d.tlsExc cfg.bind_dn cfg.bind_password = false)
    (hbe : d.bindExc cfg.bind_dn cfg.bind_password = false)
    (hb : d.bindOk cfg.bind_dn cfg.bind_password = false) :
    (ldapAuthenticatedSearch cfg d lp pw s).1 = (false, none) := by
  simp only [ldapAuthenticatedSearch, tlsStep, hc, ho, ht, hbe, hb]
  cases cfg.start_tls <;> simp

/-- Claim C1 counterexample: in search mode with a lockout policy configured
and the service bind failing (no user credential was ever checked), the
claim says the tracker entry for the user's local part is unchanged; in
fact `check_password` records a failure — starting from an empty map the
call leaves `bob` with a count-1 entry. -/
theorem service_bind_fail_increments_counterexample :
    (check_password cfgSearchAlp stubDirDeny stubStore "@bob:example.org"
        "pw" 5 7 []).2.1 = [("bob", ⟨1, 5⟩)]
    ∧ ([("bob", (⟨1, 5⟩ : Attempt))] : Map) ≠ [] := ⟨by rfl, by decide⟩

/-- Claim C1 as amended: in search mode, when the service bind with the
configured bind DN/secret fails (completing, not raising), `check_password`
returns Rejected — but the Lockout Tracker is **not** left unchanged:
whenever a lockout policy is configured a failure is recorded against the
user's local part (count incremented, or a count-1 entry created, timestamp
set to `now`), exactly as for a user-credential failure; only without a
policy does the map stay untouched (`recordIfAlp`). -/
theorem service_bind_fail_records (cfg : Config) (d : Directory) (st : Store)
    (user_id pw : String) (now nowMs : Nat) (m : Map)
    (hm : cfg.mode = Mode.search) (hp : pw ≠ "")
    (hl : lockoutCheck cfg.alp m (localpartOf user_id) now = Except.ok false)
    (hc : d.connectExc cfg.bind_dn cfg.bind_password = false)
    (ho : d.openExc cfg.bind_dn cfg.bind_password = false)
    (ht : d.tlsExc cfg.bind_dn cfg.bind_password = false)
    (hbe : d.bindExc cfg.bind_dn cfg.bind_password = false)
    (hb : d.bindOk cfg.bind_dn cfg.bind_password = false) :
    (check_password cfg d st user_id pw now nowMs m).1 = Except.ok false
    ∧ (check_password cfg d st user_id pw now nowMs m).2.1
        = recordIfAlp cfg m (localpartOf user_id) now := by
  have h1 := authSearch_bindFail cfg d (localpartOf user_id) pw s0 hc ho ht hbe hb
  simp only [check_password, if_neg hp, hl, hm]
  rcases hres : ldapAuthenticatedSearch cfg d (localpartOf user_id) pw s0
    with ⟨⟨rb, oc⟩, s1⟩
  rw [hres] at h1
  simp only at h1
  rcases h1 with ⟨rfl, rfl⟩
  simp

/-- Witness for `service_bind_fail_records` at a concrete search-mode
configuration with a denying directory stub. -/
theorem service_bind_fail_records_witness :
    (check_password cfgSearchAlp stubDirDeny stubStore "@ann:example.org"
        "pw" 11 0 []).1 = Except.ok false
    ∧ (check_password cfgSearchAlp stubDirDeny stubStore "@ann:example.org"
        "pw" 11 0 []).2.1
      = recordIfAlp cfgSearchAlp [] (localpartOf "@ann:example.org") 11 :=
  service_bind_fail_records cfgSearchAlp stubDirDeny stubStore
    "@ann:example.org" "pw" 11 0 [] rfl (by decide) (by rfl) rfl rfl rfl rfl rfl

end LdapProvider

namespace LdapProvider

/-! ### Claim C2 — uncaught exception on the success path -/

/-- Claim C2 (refuting evaluation): with no `mail` attribute configured
(`'mail' not in self.ldap_attributes`, which `parse_config` allows — `mail`
is optional), a completely successful authentication reaches the success log
of line 274, which interpolates the loop variable `mail`; the mail loop
never ran, so the name is unbound and the log call raises
`UnboundLocalError`/`NameError` instead of returning a boolean — and the
`except ldap3.core.exceptions.LDAPException` handler of line 294 does not
catch it, so it propagates to the caller, contradicting the claim that any
internal error is converted to `False`. -/
theorem success_without_mail_raises :
    (check_password cfgSimpleNoMail stubDirAccept stubStore
        "@alice:example.org" "secret" 0 0 []).1
      = Except.error PyErr.nameError := by rfl

/-! ### Claim C6 — no check for an empty local part -/

theorem foldl_devs {α : Type} (f : S → α → S)
    (hf : ∀ (s : S) (x : α), (f s x).devs = s.devs) :
    ∀ (l : List α) (s : S), (List.foldl f s l).devs = s.devs := by
  intro l
  induction l with
  | nil => intro s; rfl
  | cons x xs ih => intro s; rw [List.foldl_cons, ih (f s x), hf]

theorem threepidStep_devs (st : Store) (uid medium key raw : String)
    (nowMs : Nat) (s : S) :
    (threepidStep st uid medium key raw nowMs s).devs = s.devs := by
  unfold threepidStep
  split
  · rfl
  · split <;> rfl

theorem registerStage_devs (st : Store) (user_id lp : String) (s : S) :
    ((registerStage st user_id lp s).2).devs = s.devs := by
  unfold registerStage
  split <;> rfl

theorem displayStage_devs (cfg : Config)
    (attrs : List (String × List String)) (lp : String) (s : S) :
    (displayStage cfg attrs lp s).devs = s.devs := by
  unfold displayStage
  split <;> rfl

theorem finishAuth_devs (lp : String) (m : Map) (s : S) (b : Bool) :
    (finishAuth lp m s b).2.2.devs = s.devs := by
  cases b <;> rfl

theorem reconcileMsisdn_devs (cfg : Config) (st : Store) (uid2 lp : String)
    (attrs : List (String × List String)) (nowMs : Nat) (m : Map) (s : S)
    (mb : Bool) :
    (reconcileMsisdn cfg st uid2 lp attrs nowMs m s mb).2.2.devs = s.devs := by
  unfold reconcileMsisdn
  split
  · split
    · rfl
    · rw [finishAuth_devs,
        foldl_devs _ (fun acc x => threepidStep_devs st uid2 "msisdn" x x nowMs acc)]
  · exact finishAuth_devs _ _ _ _

theorem reconcile_devs (cfg : Config) (st : Store) (user_id lp : String)
    (attrs : List (String × List String)) (nowMs : Nat) (m : Map) (s : S) :
    (reconcile cfg st user_id lp attrs nowMs m s).2.2.devs = s.devs := by
  simp only [reconcile]
  split
  · split
    · simp [displayStage_devs, registerStage_devs]
    · rw [reconcileMsisdn_devs,
        foldl_devs _ (fun acc x =>
          threepidStep_devs st (registerStage st user_id lp s).1 "email"
            (pyLower x) x nowMs acc),
        displayStage_devs, registerStage_devs]
  · rw [reconcileMsisdn_devs, displayStage_devs, registerStage_devs]

theorem afterBind_devs (cfg : Config) (d : Directory) (st : Store)
    (user_id lp : String) (c : Conn) (nowMs : Nat) (m : Map) (s : S) :
    ∃ l, (afterBind cfg d st user_id lp c nowMs m s).2.2.devs = s.devs ++ l := by
  simp only [afterBind]
  split
  · exact ⟨_, rfl⟩
  · split
    · rw [reconcile_devs]
      exact ⟨_, rfl⟩
    · exact ⟨_, rfl⟩

theorem tlsStep_devs (d : Directory) (dn pw : String) (cid : Nat) (s : S) :
    ∃ l, ((tlsStep d dn pw cid s).2).devs = s.devs ++ l := by
  unfold tlsStep
  split_ifs
  · exact ⟨[DirEvent.openc cid], rfl⟩
  · exact ⟨[DirEvent.openc cid, DirEvent.startTls cid], by simp [setConn]⟩
  · exact ⟨[DirEvent.openc cid, DirEvent.startTls cid], by simp [setConn]⟩

theorem bindStep_devs (d : Directory) (dn pw : String) (cid : Nat) (s : S) :
    ∃ l, ((bindStep d dn pw cid s).2).devs = s.devs ++ l := by
  unfold bindStep unbindConn setConn
  split_ifs <;> simp

theorem simpleBind_devs_head (cfg : Config) (d : Directory) (dn pw : String)
    (s : S) :
    ∃ l, (ldapSimpleBind cfg d dn pw s).2.devs
      = s.devs ++ DirEvent.connect s.nextId dn pw :: l := by
  simp only [ldapSimpleBind]
  split_ifs with h1 h2
  · exact ⟨[], rfl⟩
  · rcases htls : tlsStep d dn pw s.nextId
        { s with nextId := s.nextId + 1,
                 conns := s.conns ++ [(s.nextId, false)],
                 devs := s.devs ++ [DirEvent.connect s.nextId dn pw] }
      with ⟨tb, s3⟩
    have hd3 : ∃ l, s3.devs
        = s.devs ++ DirEvent.connect s.nextId dn pw :: l := by
      have h := tlsStep_devs d dn pw s.nextId
        { s with nextId := s.nextId + 1,
                 conns := s.conns ++ [(s.nextId, false)],
                 devs := s.devs ++ [DirEvent.connect s.nextId dn pw] }
      rw [htls] at h
      rcases h with ⟨l, hl⟩
      exact ⟨l, by simpa using hl⟩
    cases tb
    · rcases bindStep_devs d dn pw s.nextId s3 with ⟨l2, hl2⟩
      rcases hd3 with ⟨l1, hl1⟩
      refine ⟨l1 ++ l2, ?_⟩
      rw [hl2, hl1]
      simp
    · exact hd3
  · rcases bindStep_devs d dn pw s.nextId
        { s with nextId := s.nextId + 1,
                 conns := s.conns ++ [(s.nextId, false)],
                 devs := s.devs ++ [DirEvent.connect s.nextId dn pw] }
      with ⟨l2, hl2⟩
    refine ⟨l2, ?_⟩
    rw [hl2]
    simp

end LdapProvider

namespace LdapProvider

/-- Claim C6 counterexample: `"@:hs"` normalizes to the empty local part
(lines 84-85 compute it, but no emptiness check follows); the claim says
such an identifier is rejected without contacting the directory — in fact
the attempt proceeds (the directory event log is non-empty) and, with a
directory that accepts the bind DN `uid=,dc=example,dc=org` and returns one
entry, even succeeds. -/
theorem empty_localpart_accepted_counterexample :
    (check_password cfgSimpleMail stubDirAccept stubStore "@:hs" "pw"
        0 0 []).1 = Except.ok true
    ∧ (check_password cfgSimpleMail stubDirAccept stubStore "@:hs" "pw"
        0 0 []).2.2.devs ≠ [] :=
  ⟨by rfl, by decide⟩

/-- Claim C6 as amended: `check_password` performs no emptiness check on the
normalized local part; an identifier whose local part is empty proceeds
exactly like any other — in simple mode (once the secret is non-empty and
the lockout gate passes) the very first directory operation is creating a
connection with bind DN `{uid}=,{base}` built from the empty local part,
rather than rejecting without directory contact. -/
theorem empty_localpart_proceeds (cfg : Config) (d : Directory) (st : Store)
    (user_id pw : String) (now nowMs : Nat) (m : Map)
    (hm : cfg.mode = Mode.simple) (hp : pw ≠ "")
    (hlp : localpartOf user_id = "")
    (hl : lockoutCheck cfg.alp m "" now = Except.ok false) :
    (check_password cfg d st user_id pw now nowMs m).2.2.devs.head?
      = some (DirEvent.connect 0
          (cfg.attr_uid ++ "=" ++ localpartOf user_id ++ "," ++ cfg.base) pw) := by
  have hl2 : lockoutCheck cfg.alp m (localpartOf user_id) now
      = Except.ok false := by rw [hlp]; exact hl
  simp only [check_password, if_neg hp, hl2, hm]
  rcases hres : ldapSimpleBind cfg d
      (cfg.attr_uid ++ "=" ++ localpartOf user_id ++ "," ++ cfg.base) pw s0
    with ⟨⟨rb, oc⟩, s1⟩
  have hh := simpleBind_devs_head cfg d
    (cfg.attr_uid ++ "=" ++ localpartOf user_id ++ "," ++ cfg.base) pw s0
  rw [hres] at hh
  rcases hh with ⟨l, hl1⟩
  simp only [s0] at hl1
  cases rb
  · simp [hl1]
  · cases oc with
    | none => simp [hl1]
    | some c =>
      rcases afterBind_devs cfg d st (pyLower user_id) (localpartOf user_id)
          c nowMs m s1 with ⟨l2, hl2⟩
      simp [hl2, hl1]

/-- Witness for `empty_localpart_proceeds` at a concrete accepting stub. -/
theorem empty_localpart_proceeds_witness :
    (check_password cfgSimpleMail stubDirAccept stubStore "@:hs" "pw"
        3 0 []).2.2.devs.head?
      = some (DirEvent.connect 0
          (cfgSimpleMail.attr_uid ++ "=" ++ localpartOf "@:hs" ++ ","
            ++ cfgSimpleMail.base) "pw") :=
  empty_localpart_proceeds cfgSimpleMail stubDirAccept stubStore "@:hs" "pw"
    3 0 [] rfl (by decide) rfl rfl

end LdapProvider

namespace LdapProvider

/-! ### Claim C7 — ambiguous or empty search result -/

theorem authSearch_multi (cfg : Config) (d : Directory) (lp pw : String)
    (hc : d.connectExc cfg.bind_dn cfg.bind_password = false)
    (ho : d.openExc cfg.bind_dn cfg.bind_password = false)
    (ht : d.tlsExc cfg.bind_dn cfg.bind_password = false)
    (hbe : d.bindExc cfg.bind_dn cfg.bind_password = false)
    (hb : d.bindOk cfg.bind_dn cfg.bind_password = true)
    (hs : d.searchExc cfg.bind_dn cfg.bind_password cfg.base
        (searchModeQuery cfg lp) = false)
    (hn : ((d.searchRes cfg.bind_dn cfg.bind_password cfg.base
        (searchModeQuery cfg lp)).filter
          (fun r => r.rtype == "searchResEntry")).length ≠ 1) :
    (ldapAuthenticatedSearch cfg d lp pw s0).1 = (false, none)
    ∧ bindDNs (ldapAuthenticatedSearch cfg d lp pw s0).2.devs
        = [cfg.bind_dn] := by
  rcases hsr : (d.searchRes cfg.bind_dn cfg.bind_password cfg.base
      (searchModeQuery cfg lp)).filter (fun r => r.rtype == "searchResEntry")
    with _ | ⟨a, _ | ⟨b, t⟩⟩
  · cases htls : cfg.start_tls <;>
      simp [ldapAuthenticatedSearch, tlsStep, hc, ho, ht, hbe, hb, hs, hsr,
        htls, bindDNs, unbindConn, setConn, s0]
  · exfalso
    rw [hsr] at hn
    simp at hn
  · cases htls : cfg.start_tls <;>
      simp [ldapAuthenticatedSearch, tlsStep, hc, ho, ht, hbe, hb, hs, hsr,
        htls, bindDNs, unbindConn, setConn, s0]

/-- Claim C7: in search mode, whenever the user search of
`_ldap_authenticated_search` returns a number of `searchResEntry` results
other than one — zero, or more than one (ambiguity) — the attempt is
Rejected, and the only bind attempted during the whole call is the service
bind with the configured `bind_dn`: no bind is ever attempted with any of
the returned DNs (lines 471-500: the non-single branch unbinds and returns
`(False, None)` without touching any result DN). -/
theorem ambiguous_search_rejected (cfg : Config) (d : Directory) (st : Store)
    (user_id pw : String) (now nowMs : Nat) (m : Map)
    (hm : cfg.mode = Mode.search) (hp : pw ≠ "")
    (hl : lockoutCheck cfg.alp m (localpartOf user_id) now = Except.ok false)
    (hc : d.connectExc cfg.bind_dn cfg.bind_password = false)
    (ho : d.openExc cfg.bind_dn cfg.bind_password = false)
    (ht : d.tlsExc cfg.bind_dn cfg.bind_password = false)
    (hbe : d.bindExc cfg.bind_dn cfg.bind_password = false)
    (hb : d.bindOk cfg.bind_dn cfg.bind_password = true)
    (hs : d.searchExc cfg.bind_dn cfg.bind_password cfg.base
        (searchModeQuery cfg (localpartOf user_id)) = false)
    (hn : ((d.searchRes cfg.bind_dn cfg.bind_password cfg.base
        (searchModeQuery cfg (localpartOf user_id))).filter
          (fun r => r.rtype == "searchResEntry")).length ≠ 1) :
    (check_password cfg d st user_id pw now nowMs m).1 = Except.ok false
    ∧ bindDNs (check_password cfg d st user_id pw now nowMs m).2.2.devs
        = [cfg.bind_dn] := by
  have h1 := authSearch_multi cfg d (localpartOf user_id) pw hc ho ht hbe hb hs hn
  simp only [check_password, if_neg hp, hl, hm]
  rcases hres : ldapAuthenticatedSearch cfg d (localpartOf user_id) pw s0
    with ⟨⟨rb, oc⟩, s1⟩
  rw [hres] at h1
  simp only [Prod.mk.injEq] at h1
  rcases h1 with ⟨⟨rfl, rfl⟩, hbd⟩
  simpa using hbd

/-- Witness for `ambiguous_search_rejected`: the stub returns two entries
for the user filter; the attempt is Rejected and only the service DN was
ever used in a bind. -/
theorem ambiguous_search_rejected_witness :
    (check_password cfgSearchAlp stubDirTwo stubStore "@u:hs" "pw"
        0 0 []).1 = Except.ok false
    ∧ bindDNs (check_password cfgSearchAlp stubDirTwo stubStore "@u:hs" "pw"
        0 0 []).2.2.devs = [cfgSearchAlp.bind_dn] :=
  ambiguous_search_rejected cfgSearchAlp stubDirTwo stubStore "@u:hs" "pw"
    0 0 [] rfl (by decide) rfl rfl rfl rfl rfl rfl rfl (by decide)

end LdapProvider

namespace LdapProvider

/-! ### Claim C8 — unbind before Rejected -/

/-- Claim C8 counterexample: with StartTLS requested, `conn.open()`
succeeding and `conn.start_tls()` raising an `LDAPException`, the `except`
branch of `_ldap_simple_bind` (lines 400-402) returns Rejected without any
unbind — the connection opened by `conn.open()` is still open, refuting the
claim that no execution path returns Rejected with a still-open
connection. -/
theorem tls_exception_leaks_connection_counterexample :
    (ldapSimpleBind cfgSimpleTls stubDirTlsRaise "cn=user,dc=example,dc=org"
        "pw" s0).1 = (false, none)
    ∧ openConns (ldapSimpleBind cfgSimpleTls stubDirTlsRaise
        "cn=user,dc=example,dc=org" "pw" s0).2 ≠ [] :=
  ⟨by rfl, by decide⟩

/-- Claim C8 as amended: on the *non-exceptional* failure paths the claim
holds — when connect, TLS upgrade and bind all complete without raising and
the bind returns failure, both `_ldap_simple_bind` (line 397) and the
service-bind portion of `_ldap_authenticated_search` (line 447) explicitly
unbind the connection before returning Rejected, leaving no connection
open; but on exception paths (the `except` branches, lines 400-402 and
502-504) Rejected is returned without unbinding, so a connection opened
before the exception — e.g. during a failing `start_tls` — remains open. -/
theorem bind_reject_closes (cfg : Config) (d : Directory) (dn pw upw lp : String)
    (hdn : cfg.bind_dn = dn) (hpw : cfg.bind_password = pw)
    (hc : d.connectExc dn pw = false) (ho : d.openExc dn pw = false)
    (ht : d.tlsExc dn pw = false) (hbe : d.bindExc dn pw = false)
    (hb : d.bindOk dn pw = false) :
    ((ldapSimpleBind cfg d dn pw s0).1 = (false, none)
      ∧ openConns (ldapSimpleBind cfg d dn pw s0).2 = [])
    ∧ ((ldapAuthenticatedSearch cfg d lp upw s0).1 = (false, none)
      ∧ openConns (ldapAuthenticatedSearch cfg d lp upw s0).2 = []) := by
  subst hdn hpw
  constructor
  · cases htls : cfg.start_tls <;>
      simp [ldapSimpleBind, tlsStep, bindStep, unbindConn, setConn, openConns,
        hc, ho, ht, hbe, hb, htls, s0]
  · cases htls : cfg.start_tls <;>
      simp [ldapAuthenticatedSearch, tlsStep, unbindConn, setConn, openConns,
        hc, ho, ht, hbe, hb, htls, s0]

/-- Witness for `bind_reject_closes` with the concrete denying stub. -/
theorem bind_reject_closes_witness :
    ((ldapSimpleBind cfgSearchAlp stubDirDeny "cn=svc,dc=example,dc=org"
        "svcpw" s0).1 = (false, none)
      ∧ openConns (ldapSimpleBind cfgSearchAlp stubDirDeny
        "cn=svc,dc=example,dc=org" "svcpw" s0).2 = [])
    ∧ ((ldapAuthenticatedSearch cfgSearchAlp stubDirDeny "u" "pw" s0).1
        = (false, none)
      ∧ openConns (ldapAuthenticatedSearch cfgSearchAlp stubDirDeny "u" "pw"
        s0).2 = []) :=
  bind_reject_closes cfgSearchAlp stubDirDeny "cn=svc,dc=example,dc=org"
    "svcpw" "pw" "u" rfl rfl rfl rfl rfl rfl rfl

end LdapProvider

namespace LdapProvider

/-! ### Claim C9 — no duplicate threepid write -/

/-- No contact-method write for email address `mm` occurs in the store
event list `l`. -/
def NoEmailAdd (mm : String) (l : List StoreEvent) : Prop :=
  ∀ (u : String) (t : Nat), StoreEvent.addThreepid u "email" mm t ∉ l

theorem NoEmailAdd_append (mm : String) (l : List StoreEvent) (e : StoreEvent)
    (h : NoEmailAdd mm l)
    (he : ∀ (u : String) (t : Nat), e ≠ StoreEvent.addThreepid u "email" mm t) :
    NoEmailAdd mm (l ++ [e]) := by
  intro u t hm
  rcases List.mem_append.mp hm with h1 | h1
  · exact h u t h1
  · exact he u t (List.mem_singleton.mp h1).symm

theorem threepidStep_noAdd (st : Store) (uid medium key raw : String)
    (nowMs : Nat) (s : S) (mm : String)
    (h : NoEmailAdd mm s.sevs)
    (hbl : medium = "email" → raw = mm →
      ∃ own, st.ownerOfThreepid medium key = some own ∧ own ≠ "") :
    NoEmailAdd mm (threepidStep st uid medium key raw nowMs s).sevs := by
  unfold threepidStep
  split
  next howner =>
    refine NoEmailAdd_append mm _ _ ?_ ?_
    · exact NoEmailAdd_append mm _ _ h
        (by intro u t heq; exact StoreEvent.noConfusion heq)
    · intro u t heq
      simp only [StoreEvent.addThreepid.injEq] at heq
      rcases heq with ⟨_, hmed, hraw, _⟩
      subst hmed
      rcases hbl rfl hraw with ⟨own, hown, _⟩
      rw [howner] at hown
      exact Option.noConfusion hown
  next own howner =>
    split_ifs with hemp
    · refine NoEmailAdd_append mm _ _ ?_ ?_
      · exact NoEmailAdd_append mm _ _ h
          (by intro u t heq; exact StoreEvent.noConfusion heq)
      · intro u t heq
        simp only [StoreEvent.addThreepid.injEq] at heq
        rcases heq with ⟨_, hmed, hraw, _⟩
        subst hmed
        rcases hbl rfl hraw with ⟨own2, hown2, hne2⟩
        rw [howner] at hown2
        injection hown2 with hh
        subst hh
        exact hne2 hemp
    · exact NoEmailAdd_append mm _ _ h
        (by intro u t heq; exact StoreEvent.noConfusion heq)

theorem foldl_noAdd {α : Type} (mm : String) (f : S → α → S)
    (hf : ∀ (s : S) (x : α), NoEmailAdd mm s.sevs → NoEmailAdd mm (f s x).sevs) :
    ∀ (l : List α) (s : S),
      NoEmailAdd mm s.sevs → NoEmailAdd mm (List.foldl f s l).sevs := by
  intro l
  induction l with
  | nil => intro s h; exact h
  | cons x xs ih => intro s h; exact ih (f s x) (hf s x h)

theorem registerStage_noAdd (mm : String) (st : Store) (user_id lp : String)
    (s : S) (h : NoEmailAdd mm s.sevs) :
    NoEmailAdd mm ((registerStage st user_id lp s).2).sevs := by
  unfold registerStage
  split
  · exact NoEmailAdd_append mm _ _ h
      (by intro u t heq; exact StoreEvent.noConfusion heq)
  · refine NoEmailAdd_append mm _ _ ?_
      (by intro u t heq; exact StoreEvent.noConfusion heq)
    exact NoEmailAdd_append mm _ _ h
      (by intro u t heq; exact StoreEvent.noConfusion heq)

theorem displayStage_noAdd (mm : String) (cfg : Config)
    (attrs : List (String × List String)) (lp : String) (s : S)
    (h : NoEmailAdd mm s.sevs) :
    NoEmailAdd mm (displayStage cfg attrs lp s).sevs := by
  unfold displayStage
  split
  · exact NoEmailAdd_append mm _ _ h
      (by intro u t heq; exact StoreEvent.noConfusion heq)
  · exact h

theorem finishAuth_sevs (lp : String) (m : Map) (s : S) (b : Bool) :
    (finishAuth lp m s b).2.2.sevs = s.sevs := by
  cases b <;> rfl

theorem reconcileMsisdn_noAdd (mm : String) (cfg : Config) (st : Store)
    (uid2 lp : String) (attrs : List (String × List String)) (nowMs : Nat)
    (m : Map) (s : S) (mb : Bool) (h : NoEmailAdd mm s.sevs) :
    NoEmailAdd mm (reconcileMsisdn cfg st uid2 lp attrs nowMs m s mb).2.2.sevs := by
  unfold reconcileMsisdn
  split
  · split
    · exact h
    · rw [finishAuth_sevs]
      refine foldl_noAdd mm _ ?_ _ _ h
      intro s1 x h1
      refine threepidStep_noAdd st uid2 "msisdn" x x nowMs s1 mm h1 ?_
      intro hmed
      exact absurd hmed (by decide)
  · rw [finishAuth_sevs]
    exact h

theorem reconcile_noAdd (mm own : String) (cfg : Config) (st : Store)
    (user_id lp : String) (attrs : List (String × List String)) (nowMs : Nat)
    (m : Map) (s : S)
    (howner : st.ownerOfThreepid "email" (pyLower mm) = some own)
    (hne : own ≠ "") (h : NoEmailAdd mm s.sevs) :
    NoEmailAdd mm (reconcile cfg st user_id lp attrs nowMs m s).2.2.sevs := by
  simp only [reconcile]
  have h3 : NoEmailAdd mm
      (displayStage cfg attrs lp (registerStage st user_id lp s).2).sevs :=
    displayStage_noAdd mm _ _ _ _ (registerStage_noAdd mm _ _ _ _ h)
  split
  · split
    · exact h3
    · apply reconcileMsisdn_noAdd
      refine foldl_noAdd mm _ ?_ _ _ h3
      intro s1 x h1
      refine threepidStep_noAdd st _ "email" (pyLower x) x nowMs s1 mm h1 ?_
      intro _ hx
      subst hx
      exact ⟨own, howner, hne⟩
  · exact reconcileMsisdn_noAdd mm _ _ _ _ _ _ _ _ _ h3

theorem afterBind_noAdd (mm own : String) (cfg : Config) (d : Directory)
    (st : Store) (user_id lp : String) (c : Conn) (nowMs : Nat) (m : Map)
    (s : S)
    (howner : st.ownerOfThreepid "email" (pyLower mm) = some own)
    (hne : own ≠ "") (h : NoEmailAdd mm s.sevs) :
    NoEmailAdd mm (afterBind cfg d st user_id lp c nowMs m s).2.2.sevs := by
  simp only [afterBind]
  split
  · exact h
  · split
    · exact reconcile_noAdd mm own _ _ _ _ _ _ _ _ howner hne h
    · exact h

theorem tlsStep_sevs (d : Directory) (dn pw : String) (cid : Nat) (s : S) :
    ((tlsStep d dn pw cid s).2).sevs = s.sevs := by
  unfold tlsStep setConn
  split_ifs <;> rfl

theorem bindStep_sevs (d : Directory) (dn pw : String) (cid : Nat) (s : S) :
    ((bindStep d dn pw cid s).2).sevs = s.sevs := by
  unfold bindStep unbindConn setConn
  split_ifs <;> rfl

theorem ldapSimpleBind_sevs (cfg : Config) (d : Directory) (dn pw : String)
    (s : S) : (ldapSimpleBind cfg d dn pw s).2.sevs = s.sevs := by
  simp only [ldapSimpleBind]
  split_ifs with h1 h2
  · rfl
  · rcases htls : tlsStep d dn pw s.nextId
        { s with nextId := s.nextId + 1,
                 conns := s.conns ++ [(s.nextId, false)],
                 devs := s.devs ++ [DirEvent.connect s.nextId dn pw] }
      with ⟨tb, s3⟩
    have hs3 : s3.sevs = s.sevs := by
      have h := tlsStep_sevs d dn pw s.nextId
        { s with nextId := s.nextId + 1,
                 conns := s.conns ++ [(s.nextId, false)],
                 devs := s.devs ++ [DirEvent.connect s.nextId dn pw] }
      rw [htls] at h
      exact h
    cases tb
    · rw [bindStep_sevs]
      exact hs3
    · exact hs3
  · rw [bindStep_sevs]

end LdapProvider

namespace LdapProvider

theorem ldapAuthenticatedSearch_sevs (cfg : Config) (d : Directory)
    (lp pw : String) (s : S) :
    (ldapAuthenticatedSearch cfg d lp pw s).2.sevs = s.sevs := by
  cases hc : d.connectExc cfg.bind_dn cfg.bind_password <;>
  cases hst : cfg.start_tls <;>
  cases ho : d.openExc cfg.bind_dn cfg.bind_password <;>
  cases ht : d.tlsExc cfg.bind_dn cfg.bind_password <;>
  cases hbe : d.bindExc cfg.bind_dn cfg.bind_password <;>
  cases hb : d.bindOk cfg.bind_dn cfg.bind_password <;>
  cases hse : d.searchExc cfg.bind_dn cfg.bind_password cfg.base
      (searchModeQuery cfg lp) <;>
  rcases hsr : (d.searchRes cfg.bind_dn cfg.bind_password cfg.base
      (searchModeQuery cfg lp)).filter (fun r => r.rtype == "searchResEntry")
    with _ | ⟨a, _ | ⟨b, t⟩⟩ <;>
  simp [ldapAuthenticatedSearch, tlsStep, bindStep, unbindConn, setConn,
    hc, hst, ho, ht, hbe, hb, hse, hsr, ldapSimpleBind_sevs]

/-- Claim C9: whenever the store already has an owner for a (lower-cased)
email value — in particular when the email already exists and is owned by
the same account, as after a previous successful `check_password` call with
the same credentials — no `user_add_threepid` write for that email value is
performed during the call (lines 228-236 only add when
`get_user_id_by_threepid` returned a falsy owner), so no duplicate
contact-method record is ever created.  The proof needs only a non-empty
owner; same-account ownership (`hsame`) is the claim's special case. -/
theorem no_duplicate_email_write (cfg : Config) (d : Directory) (st : Store)
    (user_id pw : String) (now nowMs : Nat) (m : Map) (mm own : String)
    (howner : st.ownerOfThreepid "email" (pyLower mm) = some own)
    (hsame : pyLower own = pyLower user_id)
    (hne : own ≠ "") :
    ∀ (u : String) (t : Nat),
      StoreEvent.addThreepid u "email" mm t ∉
        (check_password cfg d st user_id pw now nowMs m).2.2.sevs := by
  have base : NoEmailAdd mm s0.sevs := by
    intro u t hmem
    cases hmem
  by_cases hpw : pw = ""
  · intro u t
    simp [check_password, hpw, s0]
  · simp only [check_password, if_neg hpw]
    cases hl : lockoutCheck cfg.alp m (localpartOf user_id) now with
    | error e =>
      intro u t
      simp [s0]
    | ok b =>
      cases b
      · cases hm : cfg.mode with
        | simple =>
          rcases hres : ldapSimpleBind cfg d
              (cfg.attr_uid ++ "=" ++ localpartOf user_id ++ "," ++ cfg.base)
              pw s0 with ⟨⟨rb, oc⟩, s1⟩
          have hs1 : s1.sevs = s0.sevs := by
            have h := ldapSimpleBind_sevs cfg d
              (cfg.attr_uid ++ "=" ++ localpartOf user_id ++ "," ++ cfg.base)
              pw s0
            rw [hres] at h
            exact h
          have base1 : NoEmailAdd mm s1.sevs := by
            rw [hs1]
            exact base
          cases rb
          · intro u t
            exact base1 u t
          · cases oc with
            | none =>
              intro u t
              exact base1 u t
            | some c =>
              exact afterBind_noAdd mm own cfg d st (pyLower user_id)
                (localpartOf user_id) c nowMs m s1 howner hne base1
        | search =>
          rcases hres : ldapAuthenticatedSearch cfg d (localpartOf user_id)
              pw s0 with ⟨⟨rb, oc⟩, s1⟩
          have hs1 : s1.sevs = s0.sevs := by
            have h := ldapAuthenticatedSearch_sevs cfg d (localpartOf user_id)
              pw s0
            rw [hres] at h
            exact h
          have base1 : NoEmailAdd mm s1.sevs := by
            rw [hs1]
            exact base
          cases rb
          · intro u t
            exact base1 u t
          · cases oc with
            | none =>
              intro u t
              exact base1 u t
            | some c =>
              exact afterBind_noAdd mm own cfg d st (pyLower user_id)
                (localpartOf user_id) c nowMs m s1 howner hne base1
      · intro u t
        simp [s0]

/-- Witness for `no_duplicate_email_write`: the store already maps
`alice@example.org` to `@alice:example.org`; a second successful call for
the same user performs no `addThreepid` for that address. -/
theorem no_duplicate_email_write_witness :
    StoreEvent.addThreepid "@alice:example.org" "email" "alice@example.org" 0 ∉
      (check_password cfgSimpleMail stubDirAccept stubStoreOwned
        "@alice:example.org" "pw" 0 0 []).2.2.sevs :=
  no_duplicate_email_write cfgSimpleMail stubDirAccept stubStoreOwned
    "@alice:example.org" "pw" 0 0 [] "alice@example.org" "@alice:example.org"
    (by rfl) (by rfl) (by decide) "@alice:example.org" 0

end LdapProvider

namespace LdapProvider

/-! ### Claim C10 — behaviour without a lockout policy -/

theorem finishAuth_map_nil (lp : String) (s : S) (b : Bool) :
    (finishAuth lp [] s b).2.1 = [] := by
  cases b <;> rfl

theorem reconcileMsisdn_map_nil (cfg : Config) (st : Store) (uid2 lp : String)
    (attrs : List (String × List String)) (nowMs : Nat) (s : S) (mb : Bool) :
    (reconcileMsisdn cfg st uid2 lp attrs nowMs [] s mb).2.1 = [] := by
  unfold reconcileMsisdn
  split
  · split
    · rfl
    · exact finishAuth_map_nil _ _ _
  · exact finishAuth_map_nil _ _ _

theorem reconcile_map_nil (cfg : Config) (st : Store) (user_id lp : String)
    (attrs : List (String × List String)) (nowMs : Nat) (s : S) :
    (reconcile cfg st user_id lp attrs nowMs [] s).2.1 = [] := by
  simp only [reconcile]
  split
  · split
    · rfl
    · exact reconcileMsisdn_map_nil _ _ _ _ _ _ _ _
  · exact reconcileMsisdn_map_nil _ _ _ _ _ _ _ _

theorem afterBind_map_nil (cfg : Config) (d : Directory) (st : Store)
    (user_id lp : String) (c : Conn) (nowMs : Nat) (s : S) :
    (afterBind cfg d st user_id lp c nowMs [] s).2.1 = [] := by
  simp only [afterBind]
  split
  · rfl
  · split
    · exact reconcile_map_nil _ _ _ _ _ _ _
    · rfl

theorem finishAuth_ne_attr (lp : String) (m : Map) (s : S) (b : Bool) :
    (finishAuth lp m s b).1 ≠ Except.error PyErr.attributeError := by
  cases b <;> simp [finishAuth]

theorem reconcileMsisdn_ne_attr (cfg : Config) (st : Store) (uid2 lp : String)
    (attrs : List (String × List String)) (nowMs : Nat) (m : Map) (s : S)
    (mb : Bool) :
    (reconcileMsisdn cfg st uid2 lp attrs nowMs m s mb).1
      ≠ Except.error PyErr.attributeError := by
  unfold reconcileMsisdn
  split
  · split
    · simp
    · exact finishAuth_ne_attr _ _ _ _
  · exact finishAuth_ne_attr _ _ _ _

theorem reconcile_ne_attr (cfg : Config) (st : Store) (user_id lp : String)
    (attrs : List (String × List String)) (nowMs : Nat) (m : Map) (s : S) :
    (reconcile cfg st user_id lp attrs nowMs m s).1
      ≠ Except.error PyErr.attributeError := by
  simp only [reconcile]
  split
  · split
    · simp
    · exact reconcileMsisdn_ne_attr _ _ _ _ _ _ _ _ _
  · exact reconcileMsisdn_ne_attr _ _ _ _ _ _ _ _ _

theorem afterBind_ne_attr (cfg : Config) (d : Directory) (st : Store)
    (user_id lp : String) (c : Conn) (nowMs : Nat) (m : Map) (s : S) :
    (afterBind cfg d st user_id lp c nowMs m s).1
      ≠ Except.error PyErr.attributeError := by
  simp only [afterBind]
  split
  · simp
  · split
    · exact reconcile_ne_attr _ _ _ _ _ _ _ _
    · simp

theorem check_password_empty_map (cfg : Config) (d : Directory) (st : Store)
    (user_id pw : String) (now nowMs : Nat) (halp : cfg.alp = none) :
    (check_password cfg d st user_id pw now nowMs []).2.1 = [] := by
  by_cases hpw : pw = ""
  · simp [check_password, hpw]
  · have hl : lockoutCheck cfg.alp [] (localpartOf user_id) now
        = Except.ok false := rfl
    simp only [check_password, if_neg hpw, hl]
    cases hm : cfg.mode with
    | simple =>
      rcases hres : ldapSimpleBind cfg d
          (cfg.attr_uid ++ "=" ++ localpartOf user_id ++ "," ++ cfg.base)
          pw s0 with ⟨⟨rb, oc⟩, s1⟩
      cases rb
      · simp [recordIfAlp, halp]
      · cases oc with
        | none => rfl
        | some c => exact afterBind_map_nil _ _ _ _ _ _ _ _
    | search =>
      rcases hres : ldapAuthenticatedSearch cfg d (localpartOf user_id) pw s0
        with ⟨⟨rb, oc⟩, s1⟩
      cases rb
      · simp [recordIfAlp, halp]
      · cases oc with
        | none => rfl
        | some c => exact afterBind_map_nil _ _ _ _ _ _ _ _

theorem check_password_ne_attr (cfg : Config) (d : Directory) (st : Store)
    (user_id pw : String) (now nowMs : Nat) :
    (check_password cfg d st user_id pw now nowMs []).1
      ≠ Except.error PyErr.attributeError := by
  by_cases hpw : pw = ""
  · simp [check_password, hpw]
  · have hl : lockoutCheck cfg.alp [] (localpartOf user_id) now
        = Except.ok false := rfl
    simp only [check_password, if_neg hpw, hl]
    cases hm : cfg.mode with
    | simple =>
      rcases hres : ldapSimpleBind cfg d
          (cfg.attr_uid ++ "=" ++ localpartOf user_id ++ "," ++ cfg.base)
          pw s0 with ⟨⟨rb, oc⟩, s1⟩
      cases rb
      · simp
      · cases oc with
        | none => simp
        | some c => exact afterBind_ne_attr _ _ _ _ _ _ _ _ _
    | search =>
      rcases hres : ldapAuthenticatedSearch cfg d (localpartOf user_id) pw s0
        with ⟨⟨rb, oc⟩, s1⟩
      cases rb
      · simp
      · cases oc with
        | none => simp
        | some c => exact afterBind_ne_attr _ _ _ _ _ _ _ _ _

theorem runSeq_nil_map (cfg : Config) (d : Directory) (st : Store)
    (halp : cfg.alp = none) :
    ∀ (calls : List (String × String × Nat × Nat)),
      runSeq cfg d st calls [] = [] := by
  intro calls
  induction calls with
  | nil => rfl
  | cons c cs ih =>
    simp only [runSeq, List.foldl_cons]
    rw [check_password_empty_map cfg d st c.1 c.2.1 c.2.2.1 c.2.2.2 halp]
    simpa [runSeq] using ih

/-- Claim C10: with no account lockout policy configured (`self.ldap_alp`
never assigned, modelled as `cfg.alp = none`), across every sequence of
`check_password` calls the failed-login map stays empty — no failure is
ever recorded (lines 124/145 are guarded by `ldap_alp_exists`) — the
lockout check never rejects anyone (on an empty map it reports not-locked),
and in particular the unguarded read of `self.ldap_alp['attemps']` at line
89 is never reached: no `AttributeError` ever surfaces. -/
theorem no_policy_no_lockout (cfg : Config) (d : Directory) (st : Store)
    (halp : cfg.alp = none) :
    (∀ (calls : List (String × String × Nat × Nat)),
        runSeq cfg d st calls [] = [])
    ∧ (∀ (lp : String) (now : Nat),
        lockoutCheck cfg.alp [] lp now = Except.ok false)
    ∧ (∀ (user_id pw : String) (now nowMs : Nat),
        (check_password cfg d st user_id pw now nowMs []).1
          ≠ Except.error PyErr.attributeError) :=
  ⟨runSeq_nil_map cfg d st halp,
   fun lp now => rfl,
   fun user_id pw now nowMs =>
     check_password_ne_attr cfg d st user_id pw now nowMs⟩

/-- Witness for `no_policy_no_lockout`: two concrete failing calls under a
policy-free configuration leave the map empty. -/
theorem no_policy_no_lockout_witness :
    runSeq cfgSimpleMail stubDirDeny stubStore
      [("@a:hs", "x", 0, 0), ("@a:hs", "y", 1, 1)] [] = [] :=
  (no_policy_no_lockout cfgSimpleMail stubDirDeny stubStore rfl).1
    [("@a:hs", "x", 0, 0), ("@a:hs", "y", 1, 1)]

end LdapProvider
